import Mathlib

/- Verification development for the facebook-messenger automation core.
   Each definition below is a shallow embedding of the corresponding Python
   function; time is modelled in integer seconds, driver/page interactions
   as explicit environment records, and observable side effects as traces. -/

namespace ChatterBot

/- ## RateLimiter (src/core/rate_limiter.py) -/

/-- In-memory state of `RateLimiter`: configured capacity `max_requests`
and the list of recorded request timestamps (seconds). -/
structure RateLimiter where
  max_requests : Nat
  request_timestamps : List Int
deriving DecidableEq

/-- The 24-hour sliding-window horizon in seconds (`24 * 60 * 60`). -/
def window : Int := 24 * 60 * 60

/-- `RateLimiter.can_make_request` (rate_limiter.py lines 38-54): prune
entries `t` with `t <= now - 24h` (the code keeps `t > cutoff`), then
return true iff the remaining count is `< max_requests`.  Returns the
boolean together with the mutated limiter state. -/
def can_make_request (now : Int) (rl : RateLimiter) : Bool × RateLimiter :=
  let pruned := rl.request_timestamps.filter (fun t => now - window < t)
  (decide (pruned.length < rl.max_requests),
   { rl with request_timestamps := pruned })

/-- `RateLimiter.record_request` (rate_limiter.py lines 56-66): append the
current timestamp to the in-memory sequence (the file append failure path
only prints and does not change the in-memory state). -/
def record_request (now : Int) (rl : RateLimiter) : RateLimiter :=
  { rl with request_timestamps := rl.request_timestamps ++ [now] }

/- ## SessionService (src/services/session_service.py) -/

/-- A Selenium-style cookie record: its `name`, its `value`, and an
optional `expiry` timestamp (seconds).  Other attributes (domain, path,
secure, httpOnly) play no role in any modelled operation and are
summarised by `value`. -/
structure Cookie where
  name : String
  value : String
  expiry : Option Int
deriving DecidableEq

/-- `SessionService.validate_cookies` (session_service.py lines 180-195):
an empty list is invalid; otherwise the set of cookie names must contain
both essential names `c_user` and `xs` (`missing = essential - names`
must be empty). -/
def validate_cookies (cookies : List Cookie) : Bool :=
  if cookies.isEmpty then false
  else
    (cookies.any (fun c => c.name = "c_user")) &&
    (cookies.any (fun c => c.name = "xs"))

/-- Outcome flags for the three disk writes attempted by
`SessionService.save_cookies`: the pickle dump, the JSON dump, and the
`session_info.json` metadata write performed by `_save_session_info`. -/
structure SaveEnv where
  pickleOk : Bool
  jsonOk : Bool
  infoOk : Bool
deriving DecidableEq

/-- One attempted disk write during `save_cookies`. -/
inductive WriteOp where
  | pickleWrite
  | jsonWrite
  | infoWrite
deriving DecidableEq

/-- `SessionService.save_cookies` (session_service.py lines 101-120)
together with `_save_session_info` (lines 133-146).  A failing pickle or
JSON write raises inside `save_cookies`'s own try block and yields
`false`; `_save_session_info` catches its own exception internally
(lines 145-146), so a failing metadata write never reaches
`save_cookies`, which still returns `true`.  The trace lists the writes
that were attempted, in order. -/
def save_cookies (e : SaveEnv) : Bool × List WriteOp :=
  if !e.pickleOk then (false, [WriteOp.pickleWrite])
  else if !e.jsonOk then (false, [WriteOp.pickleWrite, WriteOp.jsonWrite])
  else (true, [WriteOp.pickleWrite, WriteOp.jsonWrite, WriteOp.infoWrite])

/- ## SimpleCaptchaService (src/services/captcha_service.py) -/

/-- Environment of one `check_and_solve` call: whether the service is
enabled, whether `_is_captcha_present` detects a challenge, whether
`_click_checkbox` manages to click a checkbox, and whether `_is_solved`
reports the challenge gone afterwards. -/
structure CaptchaEnv where
  enabled : Bool
  present : Bool
  clickOk : Bool
  solvedAfter : Bool
deriving DecidableEq

/-- `SimpleCaptchaService.check_and_solve` (captcha_service.py lines
29-59): true when disabled or no captcha is present; otherwise click the
checkbox and report whether the challenge resolved; false when the
checkbox cannot be found or the challenge persists. -/
def check_and_solve (c : CaptchaEnv) : Bool :=
  if !c.enabled then true
  else if !c.present then true
  else if c.clickOk then c.solvedAfter
  else false

/- ## FacebookService.login / restore_session (src/services/facebook_service.py) -/

/-- Observable actions of the authentication paths, recorded in order. -/
inductive Event where
  | checkRate
  | recordRate
  | captchaCheck
  | typeCredential (field : String)
  | submitLogin
  | loadCookies
  | validateCall
  | deleteAllCookies
  | addCookie (c : Cookie)
  | refreshPage
  | locationCheck
  | saveCookies
deriving DecidableEq

/-- Environment of one `FacebookService.login` call: the configured
credentials, whether a captcha service was injected (`self.captcha` is
not None), the value `check_and_solve` would return at the checkpoints,
and the outcomes of the element-location, submission and logged-in
probes. -/
structure LoginEnv where
  username : String
  password : String
  hasCaptcha : Bool
  captchaResult : Bool
  emailFound : Bool
  passwordFound : Bool
  submitOk : Bool
  loggedIn : Bool
  locationFixed : Bool
  saveOk : Bool
deriving DecidableEq

/-- One captcha checkpoint inside `login`: the code runs
`self.captcha.check_and_solve()` when a service is present and discards
the returned value (facebook_service.py lines 59-60, 82-83, 92-94). -/
def captchaCheckpoint (e : LoginEnv) : List Event :=
  if e.hasCaptcha then [Event.captchaCheck] else []

/-- `FacebookService.login` (facebook_service.py lines 37-126): fail on
missing credentials; navigate; captcha checkpoint; locate and fill the
email field (fail if absent); locate and fill the password field (fail if
absent); captcha checkpoint; submit (fail if no submit control); captcha
checkpoint; 2FA probe (placeholder, no effect); then report success iff
`_is_logged_in`, running the location check and saving cookies on
success.  The results of the captcha checkpoints, of
`check_and_fix_location` and of `save_cookies` are all discarded. -/
def login (e : LoginEnv) : Bool × List Event :=
  if e.username = "" || e.password = "" then (false, [])
  else
    let t1 := captchaCheckpoint e
    if !e.emailFound then (false, t1)
    else
      let t2 := t1 ++ [Event.typeCredential "email"]
      if !e.passwordFound then (false, t2)
      else
        let t3 := t2 ++ [Event.typeCredential "password"] ++ captchaCheckpoint e
        if !e.submitOk then (false, t3)
        else
          let t4 := t3 ++ [Event.submitLogin] ++ captchaCheckpoint e
          if e.loggedIn then (true, t4 ++ [Event.locationCheck, Event.saveCookies])
          else (false, t4)

/-- Environment of one `FacebookService.restore_session` call: the result
of `SessionService.load_cookies`, the current time, and the outcome of
the `_is_logged_in` probe after installing the cookies. -/
structure RestoreEnv where
  loadedCookies : Option (List Cookie)
  now : Int
  loggedIn : Bool
  locationFixed : Bool
deriving DecidableEq

/-- The per-cookie transformation of restore_session's install loop
(facebook_service.py lines 606-614): when the cookie carries an `expiry`
strictly in the past, the `expiry` attribute is popped; the cookie itself
is then passed to `driver.add_cookie` either way. -/
def transformCookie (now : Int) (c : Cookie) : Cookie :=
  match c.expiry with
  | some t => if t < now then { c with expiry := none } else c
  | none => c

/-- `FacebookService.restore_session` (facebook_service.py lines
584-631): load cookies (fail on None or an empty list, both falsy);
validate them (fail if invalid); clear the driver's cookies; add each
loaded cookie after the expiry transformation (an `add_cookie` exception
only prints and continues); refresh; then report success iff
`_is_logged_in`, re-running the location check on success (its result is
discarded). -/
def restore_session (env : RestoreEnv) : Bool × List Event :=
  match env.loadedCookies with
  | none => (false, [Event.loadCookies])
  | some cs =>
    if cs.isEmpty then (false, [Event.loadCookies])
    else if !(validate_cookies cs) then (false, [Event.loadCookies, Event.validateCall])
    else
      let tr := [Event.loadCookies, Event.validateCall, Event.deleteAllCookies] ++
        (cs.map (transformCookie env.now)).map Event.addCookie ++ [Event.refreshPage]
      if env.loggedIn then (true, tr ++ [Event.locationCheck]) else (false, tr)

/-- The cookies passed to `driver.add_cookie` in a trace, in order. -/
def installedCookies (tr : List Event) : List Cookie :=
  tr.filterMap (fun e => match e with | Event.addCookie c => some c | _ => none)

/- ## LeadRepository.create_batch (src/api/repository.py) -/

/-- State of the leads table during one `create_batch` call, keyed by the
`UNIQUE(url)` constraint: `committed` rows visible from before the call
(and previous transactions), and `pending` rows inserted by the current
open transaction but not yet committed. -/
structure BatchState where
  committed : List String
  pending : List String
deriving DecidableEq

/-- One iteration of `create_batch`'s loop (repository.py lines 72-84):
`INSERT` succeeds when no committed or transaction-pending row has the
same url, incrementing `created`; a unique-constraint conflict raises
`IntegrityError` and the handler calls `conn.rollback()`, which aborts
the whole open transaction — every pending insert is discarded — and
increments `duplicates`. -/
def insertLead (acc : BatchState × Nat × Nat) (url : String) :
    BatchState × Nat × Nat :=
  let st := acc.1
  let created := acc.2.1
  let dups := acc.2.2
  if (st.committed ++ st.pending).contains url then
    (⟨st.committed, []⟩, created, dups + 1)
  else
    (⟨st.committed, st.pending ++ [url]⟩, created + 1, dups)

/-- `LeadRepository.create_batch` (repository.py lines 65-88): loop the
inserts inside one connection, then `conn.commit()` makes the pending
rows durable.  Returns the final committed table together with the
`created` and `duplicates` counters. -/
def create_batch (db : List String) (leads : List String) :
    List String × Nat × Nat :=
  let r := leads.foldl insertLead (⟨db, []⟩, 0, 0)
  (r.1.committed ++ r.1.pending, r.2.1, r.2.2)

/- ## FacebookService._verify_uk_location (facebook_service.py lines 321-351) -/

/-- Bool-prefix test on character lists (mirrors Python's startswith used
implicitly by substring search). -/
def prefixOf : List Char → List Char → Bool
  | [], _ => true
  | _ :: _, [] => false
  | a :: as, b :: bs => a = b && prefixOf as bs

/-- Substring occurrence test on character lists: Python's `needle in
hay`. -/
def containsSub (needle : List Char) : List Char → Bool
  | [] => needle.isEmpty
  | c :: rest => prefixOf needle (c :: rest) || containsSub needle rest

/-- Python's `s.lower()`, as a character list (so that the claim
instances evaluate by kernel reduction). -/
def lowerStr (s : String) : List Char :=
  s.toList.map Char.toLower

/-- Python's `needle in hay`. -/
def strContains (hay : List Char) (needle : String) : Bool :=
  containsSub needle.toList hay

/-- Fuelled worker for `strCount`: Python's non-overlapping
`str.count`.  The fuel bounds the recursion depth; `fuel = hay.length`
suffices because every step consumes at least one character. -/
def countOccurAux : Nat → List Char → List Char → Nat
  | 0, _, _ => 0
  | _ + 1, _, [] => 0
  | fuel + 1, needle, c :: rest =>
    if prefixOf needle (c :: rest) && !needle.isEmpty then
      1 + countOccurAux fuel needle ((c :: rest).drop needle.length)
    else countOccurAux fuel needle rest

/-- Python's `hay.count(needle)` (non-overlapping occurrences). -/
def strCount (hay : List Char) (needle : String) : Nat :=
  countOccurAux hay.length needle.toList hay

/-- The UK place names scanned by `_verify_uk_location`. -/
def uk_location_terms : List String :=
  ["london", "manchester", "birmingham", "edinburgh", "united kingdom"]

/-- The URL indicators scanned by `_verify_uk_location`. -/
def uk_url_terms : List String := ["london", "uk", "gb"]

/-- A rendered page state: the page source and the current URL, as the
driver reports them (the code lowercases both before scanning). -/
structure PageState where
  page_source : String
  current_url : String

/-- Signal 1: a GBP currency symbol occurs in the lowercased page source. -/
def has_gbp (p : PageState) : Bool :=
  strContains (lowerStr p.page_source) "£"

/-- Signal 2: some known UK place name occurs in the lowercased page
source. -/
def has_uk_locations (p : PageState) : Bool :=
  uk_location_terms.any (fun l => strContains (lowerStr p.page_source) l)

/-- Signal 3: the product-naming heuristic — fewer than five occurrences
of the US-market name `rebel` in the lowercased page source. -/
def has_fewer_rebels (p : PageState) : Bool :=
  strCount (lowerStr p.page_source) "rebel" < 5

/-- Signal 4: a UK indicator occurs in the lowercased current URL. -/
def has_uk_in_url (p : PageState) : Bool :=
  uk_url_terms.any (fun l => strContains (lowerStr p.current_url) l)

/-- Python's `sum([...])` over the four boolean signals. -/
def ukScore (p : PageState) : Nat :=
  (if has_gbp p then 1 else 0) + (if has_uk_locations p then 1 else 0) +
  (if has_fewer_rebels p then 1 else 0) + (if has_uk_in_url p then 1 else 0)

/-- `FacebookService._verify_uk_location` (facebook_service.py lines
321-351): compute the four signals, sum them, accept iff `uk_score >= 2`. -/
def verify_uk_location (p : PageState) : Bool :=
  decide (2 ≤ ukScore p)

/- ## NavigationService.find_message_button (src/messaging/services/navigation_service.py) -/

/-- A located DOM element as the click loop sees it: displayed, enabled,
and whether clicking it succeeds without raising. -/
structure Elem where
  displayed : Bool
  enabled : Bool
  clickOk : Bool
deriving DecidableEq

/-- A page as seen through `driver.find_elements`: for each selector
string, either a list of matched elements, or `none` when the lookup
itself raises (both are caught by `_try_click_message_button`). -/
structure NavPage where
  find : String → Option (List Elem)

/-- The ordered selector list of `find_message_button`
(navigation_service.py lines 60-67). -/
def message_selectors : List String :=
  ["[aria-label*=\x27Message\x27 i]",
   "div[role=\x27button\x27]:contains(\x27Message\x27)",
   "button:contains(\x27Message\x27)",
   "[data-testid*=\x27message\x27]",
   "div:contains(\x27Message seller\x27)",
   "a[href*=\x27/messages/\x27]"]

/-- `NavigationService._try_click_message_button` (navigation_service.py
lines 76-98): find the selector's elements (an exception yields false),
take the first displayed-and-enabled one and click it (a click exception
is caught by the surrounding try and yields false); false when no
element qualifies. -/
def tryClick (page : NavPage) (selector : String) : Bool :=
  match page.find selector with
  | none => false
  | some elems =>
    match elems.find? (fun el => el.displayed && el.enabled) with
    | none => false
    | some el => el.clickOk

/-- Worker for `find_message_button`: try each selector in order,
short-circuiting on the first success; the second component lists the
selectors attempted. -/
def tryButtons (page : NavPage) : List String → Bool × List String
  | [] => (false, [])
  | s :: rest =>
    if tryClick page s then (true, [s])
    else
      let r := tryButtons page rest
      (r.1, s :: r.2)

/-- `NavigationService.find_message_button` (navigation_service.py lines
52-74): false immediately when no driver; otherwise try the selectors in
order and report whether any clicked. -/
def find_message_button (driverSet : Bool) (page : NavPage) :
    Bool × List String :=
  if !driverSet then (false, [])
  else tryButtons page message_selectors

/-- Hypothesis of the locator-exhaustion claim: no selector yields a
visible and enabled control on this page. -/
def noClickable (page : NavPage) : Prop :=
  ∀ sel elems, page.find sel = some elems →
    elems.find? (fun el => el.displayed && el.enabled) = none

/- ## Concrete scenarios used by the claim theorems -/

/-- A captcha run that fails: service enabled, challenge present, the
checkbox is clicked but the challenge does not resolve, so
`check_and_solve` returns false. -/
def captchaFailEnv : CaptchaEnv := ⟨true, true, true, false⟩

/-- A login environment in which every checkpoint's `check_and_solve`
returns false (an unresolved challenge) while every other step succeeds. -/
def envUnresolvedCaptcha : LoginEnv :=
  { username := "user", password := "pw", hasCaptcha := true,
    captchaResult := check_and_solve captchaFailEnv,
    emailFound := true, passwordFound := true, submitOk := true,
    loggedIn := true, locationFixed := true, saveOk := true }

/-- A login environment in which every step succeeds (no captcha service
injected). -/
def envPlainLogin : LoginEnv :=
  { username := "user2", password := "pw2", hasCaptcha := false,
    captchaResult := true,
    emailFound := true, passwordFound := true, submitOk := true,
    loggedIn := true, locationFixed := true, saveOk := true }

/-- A rate limiter whose 24-hour window is already full for capacity 2. -/
def rlFull : RateLimiter := ⟨2, [0, 1]⟩

/-- A valid persisted cookie set carrying both essential names. -/
def csRestore : List Cookie := [⟨"c_user", "v", none⟩, ⟨"xs", "v", none⟩]

/-- A restore environment with a valid persisted session whose
installation yields the authenticated-state markers. -/
def envRestore : RestoreEnv := ⟨some csRestore, 0, true, true⟩

/-- An identity cookie whose expiry (10) lies in the past of `envExpired.now`. -/
def cExpired : Cookie := ⟨"c_user", "v", some 10⟩

/-- An auth-signature cookie whose expiry (200) lies in the future. -/
def cFresh : Cookie := ⟨"xs", "v", some 200⟩

/-- A restore environment at time 100 whose loaded set contains the
expired `cExpired` and the fresh `cFresh`. -/
def envExpired : RestoreEnv := ⟨some [cExpired, cFresh], 100, true, true⟩

/-- A cookie set whose identity and auth-signature entries both carry
expiry timestamps in the past (relative to any time after 20). -/
def csExpired : List Cookie := [⟨"c_user", "v", some 10⟩, ⟨"xs", "v", some 20⟩]

/-- Page content exhibiting exactly two of the four UK signals: a GBP
symbol and a UK place name, but five `rebel` occurrences (so the
naming-convention signal is off) and no UK indicator in the URL. -/
def pageTwoSignals : PageState :=
  ⟨"£ london rebel rebel rebel rebel rebel", "https://example.com/marketplace"⟩

/-- Page content exhibiting exactly one of the four UK signals: a GBP
symbol only. -/
def pageOneSignal : PageState :=
  ⟨"£ rebel rebel rebel rebel rebel", "https://example.com/marketplace"⟩

/-- A page on which every selector lookup returns an empty element list. -/
def emptyNavPage : NavPage := ⟨fun _ => some []⟩

end ChatterBot

namespace ChatterBot

/-- Claim C1: `can_make_request` first removes timestamps outside the
trailing 24-hour horizon and then returns true iff the number of remaining
timestamps is strictly below `max_requests`; in particular, with
`max_requests = 2` and timestamps recorded at `t0` and `t0+1`, a call at
`t0+2` returns false, and a call at `t0+24h+10` returns true because both
entries are pruned. -/
theorem C1_sliding_window (maxR : Nat) (ts : List Int) (now t0 : Int) :
    ((can_make_request now ⟨maxR, ts⟩).2.request_timestamps
        = ts.filter (fun t => now - window < t) ∧
     ((can_make_request now ⟨maxR, ts⟩).1 = true ↔
        (ts.filter (fun t => now - window < t)).length < maxR)) ∧
    (can_make_request (t0 + 2)
        (record_request (t0 + 1) (record_request t0 ⟨2, []⟩))).1 = false ∧
    (can_make_request (t0 + window + 10)
        (record_request (t0 + 1) (record_request t0 ⟨2, []⟩))).1 = true := by
  refine ⟨⟨rfl, by simp [can_make_request]⟩, ?_, ?_⟩
  · have h1 : (t0 + 2) - window < t0 := by simp [window]; omega
    have h2 : (t0 + 2) - window < t0 + 1 := by simp [window]; omega
    simp [can_make_request, record_request, List.filter, h1, h2]
  · have h1 : ¬ ((t0 + window + 10) - window < t0) := by omega
    have h2 : ¬ ((t0 + window + 10) - window < t0 + 1) := by omega
    simp [can_make_request, record_request, List.filter, h1, h2]

/-- Claim C2 counterexample: in `envUnresolvedCaptcha` every checkpoint's
`check_and_solve` returns false (the challenge stays unresolved), yet
`login` still submits the credentials and reports success — the claim
that an unresolved challenge makes the attempt fail is false on the
code, which discards the checkpoint results. -/
theorem C2_counterexample :
    check_and_solve captchaFailEnv = false ∧
    envUnresolvedCaptcha.captchaResult = false ∧
    (login envUnresolvedCaptcha).1 = true ∧
    Event.submitLogin ∈ (login envUnresolvedCaptcha).2 := by decide

/-- Claim C2 (amended): `login` invokes the challenge checkpoints but
discards their results — its outcome and its whole action trace are
identical for any value `check_and_solve` returns, so an unresolved
challenge never by itself aborts the attempt. -/
theorem C2_amended (e : LoginEnv) (b : Bool) :
    login { e with captchaResult := b } = login e := rfl

/-- Claim C3 counterexample: with the 24-hour window already full
(`can_make_request` = false), `login` still proceeds to credential entry
and succeeds, and its trace contains neither a rate-window check nor a
recorded timestamp — the claim that the login flow first requires
`can_proceed` and fails rate-limited is false on the code. -/
theorem C3_counterexample :
    (can_make_request 2 rlFull).1 = false ∧
    (login envPlainLogin).1 = true ∧
    Event.typeCredential "email" ∈ (login envPlainLogin).2 ∧
    Event.checkRate ∉ (login envPlainLogin).2 ∧
    Event.recordRate ∉ (login envPlainLogin).2 := by decide

/-- Claim C3 (amended): `FacebookService.login` never consults the rate
window and never consumes a budget slot — no execution of the login flow
contains a `can_make_request` check or a `record_request`. -/
theorem C3_amended (e : LoginEnv) :
    Event.checkRate ∉ (login e).2 ∧ Event.recordRate ∉ (login e).2 := by
  rcases e with ⟨u, p, hc, cr, ef, pf, so, li, lf, sv⟩
  cases hc <;>
    simp [login, captchaCheckpoint] <;>
    split_ifs <;>
    simp

/-- Claim C5: evaluating `create_batch` at the failing input.  With the
same fresh lead url repeated twice, `conn.rollback()` after the
duplicate conflict aborts the whole open transaction, so the first
(successful) insert is discarded and zero rows persist, although the
returned counters read `created = 1, duplicates = 1`; repeated three
times, the third insert succeeds again (the row no longer exists inside
the transaction) giving `created = 2, duplicates = 1` instead of the
claimed `created = 1, duplicates = 2`. -/
theorem C5_rollback_discards_batch :
    create_batch [] ["u", "u"] = ([], 1, 1) ∧
    create_batch [] ["u", "u", "u"] = (["u"], 2, 1) := by decide

/-- Claim C6 counterexample: when both cookie encodings write fine but
the metadata write fails, `save_cookies` still returns true, because
`_save_session_info` catches its own exception — the claim that any of
the three failing writes makes `save_cookies` return false is false on
the code. -/
theorem C6_counterexample :
    (save_cookies ⟨true, true, false⟩).1 = true ∧
    (⟨true, true, false⟩ : SaveEnv).infoOk = false := by decide

/-- Claim C6 (amended): `save_cookies` returns true iff the compact
(pickle) and the human-inspectable (JSON) writes both succeed; the
metadata write is attempted but its failure is swallowed inside
`_save_session_info` and never affects the result. -/
theorem C6_amended (e : SaveEnv) :
    (save_cookies e).1 = (e.pickleOk && e.jsonOk) := by
  rcases e with ⟨p, j, i⟩
  cases p <;> cases j <;> rfl

/-- A cookie list that validates is nonempty. -/
theorem validate_ne_nil {cs : List Cookie} (h : validate_cookies cs = true) :
    cs.isEmpty = false := by
  cases cs with
  | nil => simp [validate_cookies] at h
  | cons a l => rfl

/-- Claim C4: when the persisted session loads, passes validation and its
installation yields the authenticated-state markers, `restore_session`
returns true and its trace contains no credential typing, no login-form
submission, no rate-window check and no recorded timestamp. -/
theorem C4_restore_short_circuit (env : RestoreEnv) (cs : List Cookie)
    (h1 : env.loadedCookies = some cs) (h2 : validate_cookies cs = true)
    (h3 : env.loggedIn = true) :
    (restore_session env).1 = true ∧
    (∀ s, Event.typeCredential s ∉ (restore_session env).2) ∧
    Event.submitLogin ∉ (restore_session env).2 ∧
    Event.checkRate ∉ (restore_session env).2 ∧
    Event.recordRate ∉ (restore_session env).2 := by
  have hne := validate_ne_nil h2
  rcases env with ⟨lc, now, li, lf⟩
  cases h1
  cases h3
  simp [restore_session, hne, h2]

/-- Claim C4 witness: the concrete valid session `csRestore` restored in
`envRestore`. -/
theorem C4_witness :
    validate_cookies csRestore = true ∧ envRestore.loggedIn = true ∧
    ((restore_session envRestore).1 = true ∧
     (∀ s, Event.typeCredential s ∉ (restore_session envRestore).2) ∧
     Event.submitLogin ∉ (restore_session envRestore).2 ∧
     Event.checkRate ∉ (restore_session envRestore).2 ∧
     Event.recordRate ∉ (restore_session envRestore).2) :=
  ⟨by decide, rfl, C4_restore_short_circuit envRestore csRestore rfl (by decide) rfl⟩

/-- Claim C7 counterexample: in `envExpired` the loaded `c_user` entry
has expiry 10, strictly before `now = 100`, yet it is still passed to
`driver.add_cookie` (with its expiry attribute popped) — both loaded
entries are installed, so the claim that an already-expired entry is
dropped and not installed is false on the code. -/
theorem C7_counterexample :
    cExpired.expiry = some 10 ∧ ((10 : Int) < envExpired.now) = True ∧
    installedCookies (restore_session envExpired).2 =
      [⟨"c_user", "v", none⟩, ⟨"xs", "v", some 200⟩] ∧
    (installedCookies (restore_session envExpired).2).any
      (fun c => c.name = "c_user") = true := by decide

/-- Extracting the installed cookies from the addCookie segment of a
restore trace recovers the installed list itself. -/
theorem filterMap_comp_addCookie (now : Int) (cs : List Cookie) :
    List.filterMap
      ((fun e => match e with | Event.addCookie c => some c | _ => none) ∘
        Event.addCookie ∘ transformCookie now) cs =
      cs.map (transformCookie now) := by
  induction cs with
  | nil => rfl
  | cons a t ih => simp_all [Function.comp]

/-- Claim C7 (amended): during restore, every loaded entry is installed
into the driver; an entry whose expiry is already in the past merely has
its expiry attribute removed first (becoming a session cookie), it is
not dropped. -/
theorem C7_amended (env : RestoreEnv) (cs : List Cookie)
    (h1 : env.loadedCookies = some cs) (h2 : validate_cookies cs = true) :
    installedCookies (restore_session env).2 =
      cs.map (transformCookie env.now) := by
  have hne := validate_ne_nil h2
  rcases env with ⟨lc, now, li, lf⟩
  cases h1
  cases li <;>
    simp [restore_session, hne, h2, installedCookies, filterMap_comp_addCookie]

/-- Claim C7 amended witness: the concrete expired/fresh pair of
`envExpired`, each installed after the expiry transformation. -/
theorem C7_amended_witness :
    validate_cookies [cExpired, cFresh] = true ∧
    installedCookies (restore_session envExpired).2 =
      [cExpired, cFresh].map (transformCookie envExpired.now) :=
  ⟨by decide, C7_amended envExpired [cExpired, cFresh] rfl (by decide)⟩

/-- Claim C8: the location verdict accepts iff at least 2 of the 4
signals (GBP symbol, UK place name, naming-convention heuristic, UK
indicator in the URL) are present; a concrete page with exactly 2
signals accepts and one with exactly 1 signal rejects. -/
theorem C8_location_threshold :
    (∀ p : PageState, verify_uk_location p = true ↔ 2 ≤ ukScore p) ∧
    (ukScore pageTwoSignals = 2 ∧ verify_uk_location pageTwoSignals = true) ∧
    (ukScore pageOneSignal = 1 ∧ verify_uk_location pageOneSignal = false) := by
  refine ⟨fun p => by simp [verify_uk_location], by decide, by decide⟩

/-- Claim C9: on any page where no selector of the ordered strategy list
yields a displayed-and-enabled element (selector lookups may even
raise), `find_message_button` returns false only after attempting the
full selector list; every exception path is absorbed into a false
return, never propagated. -/
theorem C9_locator_exhaustion (page : NavPage) (h : noClickable page) :
    find_message_button true page = (false, message_selectors) := by
  have hsel : ∀ s, tryClick page s = false := by
    intro s
    unfold tryClick
    cases hf : page.find s with
    | none => rfl
    | some elems => simp [h s elems hf]
  have hall : ∀ l : List String, tryButtons page l = (false, l) := by
    intro l
    induction l with
    | nil => rfl
    | cons s rest ih => simp [tryButtons, hsel s, ih]
  simp [find_message_button, hall]

/-- Claim C9 witness: a page matching none of the selectors. -/
theorem C9_witness :
    noClickable emptyNavPage ∧
    find_message_button true emptyNavPage = (false, message_selectors) := by
  have h : noClickable emptyNavPage := by
    intro sel elems heq
    simp only [emptyNavPage] at heq
    cases heq
    rfl
  exact ⟨h, C9_locator_exhaustion emptyNavPage h⟩

/-- Two cookie lists with the same name sequence agree on every
name-membership test. -/
theorem any_name_congr : ∀ (l1 l2 : List Cookie),
    l1.map Cookie.name = l2.map Cookie.name →
    ∀ s : String, l1.any (fun c => c.name = s) = l2.any (fun c => c.name = s) := by
  intro l1
  induction l1 with
  | nil =>
    intro l2 hm s
    cases l2 with
    | nil => rfl
    | cons b t2 => simp at hm
  | cons a t ih =>
    intro l2 hm s
    cases l2 with
    | nil => simp at hm
    | cons b t2 =>
      simp only [List.map_cons, List.cons.injEq] at hm
      simp [List.any_cons, hm.1, ih t2 hm.2 s]

/-- Claim C10: for every non-empty cookie list, `validate_cookies`
decides validity from the name fields alone — it returns true iff some
entry is named `c_user` and some entry is named `xs`, and its verdict is
unchanged by replacing the list with any list carrying the same names. -/
theorem C10_validate_names_only (cs : List Cookie) (h : cs ≠ []) :
    (validate_cookies cs = true ↔
      ((∃ c ∈ cs, c.name = "c_user") ∧ (∃ c ∈ cs, c.name = "xs"))) ∧
    (∀ cs2 : List Cookie, cs.map Cookie.name = cs2.map Cookie.name →
      validate_cookies cs = validate_cookies cs2) := by
  have hie : cs.isEmpty = false := by
    cases cs with
    | nil => exact absurd rfl h
    | cons a l => rfl
  constructor
  · simp [validate_cookies, hie, List.any_eq_true]
  · intro cs2 hm
    have hie2 : cs2.isEmpty = false := by
      cases cs2 with
      | nil =>
        exfalso
        apply h
        simpa using congrArg List.length hm
      | cons a l => rfl
    simp [validate_cookies, hie, hie2,
      any_name_congr cs cs2 hm "c_user", any_name_congr cs cs2 hm "xs"]

/-- Claim C10 witness: a cookie set whose identity and auth-signature
entries both carry expiry timestamps in the past still validates as
true, since only names are inspected. -/
theorem C10_witness :
    csExpired ≠ [] ∧ validate_cookies csExpired = true ∧
    ((validate_cookies csExpired = true ↔
      ((∃ c ∈ csExpired, c.name = "c_user") ∧ (∃ c ∈ csExpired, c.name = "xs"))) ∧
     (∀ cs2 : List Cookie, csExpired.map Cookie.name = cs2.map Cookie.name →
      validate_cookies csExpired = validate_cookies cs2)) :=
  ⟨by decide, by decide, C10_validate_names_only csExpired (by decide)⟩

end ChatterBot
